import Mathlib

/-!
# TaskWatch availability engine — shallow embedding

A shallow embedding of the store-monitoring report engine
(`app/core/reporter.py`, `app/api/reports.py`, `app/models/db_models.py`)
and proofs of the frozen claims about it.

Modelling conventions:
* Naive UTC datetimes and local wall-clock datetimes are integers counting
  seconds (the spec declares no sub-second precision requirement, §1).
  Local calendar dates are integers counting days; a local datetime `t`
  lies on date `t.fdiv 86400`.  Day numbering starts on a Monday, so
  `weekday d = d % 7` matches Python `date.weekday()` (0 = Monday).
* A `pytz` timezone attached to a store is modelled by its UTC offset
  `off` in seconds: `astimezone(local_tz)` adds `off`,
  `astimezone(pytz.UTC).replace(tzinfo=None)` subtracts it.
* Python float arithmetic on second counts is modelled exactly: spans are
  integers, unit conversion and 2-decimal rounding live in `ℚ`.
* Database queries are modelled by passing the queried rows as list
  arguments (the Data Provider of spec §6).
-/

/-- Row of the `store_status` table (`db_models.StoreStatus`): a point
observation. `status` is the raw string column, 'active' or 'inactive'. -/
structure StoreStatus where
  store_id : String
  timestamp_utc : Int
  status : String
deriving DecidableEq, Repr

/-- Row of the `business_hours` table (`db_models.BusinessHours`).
`start_time_local` and `end_time_local` are local times of day in seconds
(0 ≤ t < 86400). -/
structure BusinessHours where
  store_id : String
  dayOfWeek : Int
  start_time_local : Int
  end_time_local : Int
deriving DecidableEq, Repr

/-- The key used by `observations.sort(key=lambda x: x.timestamp_utc)` and
the `ORDER BY timestamp_utc` of the per-store query. -/
def obsLe (a b : StoreStatus) : Prop := a.timestamp_utc ≤ b.timestamp_utc

instance : DecidableRel obsLe := fun a b =>
  decidable_of_iff (a.timestamp_utc ≤ b.timestamp_utc) Iff.rfl

/-- Python's stable `list.sort` by timestamp, modelled by the (equally
stable) insertion sort. -/
def sortObs (l : List StoreStatus) : List StoreStatus := List.insertionSort obsLe l

/-- "Handle period before first observation" block of
`reporter.interpolate_status_in_interval`, on the sorted list. -/
def pre_gap (obs : List StoreStatus) (start_time : Int) : Int :=
  match obs.head? with
  | none => 0
  | some first_obs =>
    if start_time < first_obs.timestamp_utc then
      (if first_obs.status = "active" then first_obs.timestamp_utc - start_time else 0)
    else 0

/-- "Handle periods between observations" block of
`reporter.interpolate_status_in_interval`: the loop over consecutive pairs,
on the sorted list. -/
def between_gaps (obs : List StoreStatus) : Int :=
  ((obs.zip obs.tail).map (fun p =>
    if p.1.status = "active" then p.2.timestamp_utc - p.1.timestamp_utc else 0)).sum

/-- "Handle period after last observation" block of
`reporter.interpolate_status_in_interval`, on the sorted list. -/
def post_gap (obs : List StoreStatus) (end_time : Int) : Int :=
  match obs.getLast? with
  | none => 0
  | some last_obs =>
    if last_obs.timestamp_utc < end_time then
      (if last_obs.status = "active" then end_time - last_obs.timestamp_utc else 0)
    else 0

/-- `reporter.interpolate_status_in_interval`: right-hand-held step
interpolation of observations inside one business interval, returning
`(uptime_seconds, downtime_seconds)`. -/
def interpolate_status_in_interval (observations : List StoreStatus)
    (start_time end_time : Int) : Int × Int :=
  if observations.isEmpty then (0, 0)
  else
    let total_seconds := end_time - start_time
    let obs := sortObs observations
    let uptime_seconds := pre_gap obs start_time + between_gaps obs + post_gap obs end_time
    (uptime_seconds, total_seconds - uptime_seconds)

/-- Python `date.weekday()` for a local day number: 0 = Monday … 6 = Sunday
(day numbering starts on a Monday). -/
def weekday (d : Int) : Int := d.emod 7

/-- The pre-clip business interval one rule contributes on one calendar day:
`business_start = combine(day, start_time_local)`,
`business_end = combine(day, end_time_local)`, plus one day on the end when
the rule is overnight (`end_time_local < start_time_local`) — the body of
the inner loop of `reporter.get_business_intervals`, before clipping. -/
def rule_interval (current_day : Int) (hours : BusinessHours) : Int × Int :=
  let business_start := current_day * 86400 + hours.start_time_local
  let business_end := current_day * 86400 + hours.end_time_local
  let business_end :=
    if hours.end_time_local < hours.start_time_local then business_end + 86400
    else business_end
  (business_start, business_end)

/-- `reporter.get_business_intervals`: the local-time business intervals of
`store_id` overlapping `[start_time, end_time]` (naive UTC seconds), with
the store's timezone given as its offset `off`.  `all_hours` stands for the
`business_hours` table; the initial filter is the store's DB query. -/
def get_business_intervals (store_id : String) (all_hours : List BusinessHours)
    (start_time end_time : Int) (off : Int) : List (Int × Int) :=
  let business_hours := all_hours.filter (fun bh => bh.store_id = store_id)
  if business_hours.isEmpty then
    [(start_time + off, end_time + off)]
  else
    let start_local := start_time + off
    let end_local := end_time + off
    let current_day := start_local.fdiv 86400
    let end_day := end_local.fdiv 86400
    let days := (List.range (end_day - current_day + 1).toNat).map
      (fun i => current_day + (i : Int))
    days.foldl (fun intervals day =>
      let day_hours := business_hours.filter (fun bh => bh.dayOfWeek = weekday day)
      day_hours.foldl (fun intervals2 hours =>
        let bi := rule_interval day hours
        let interval_start := max bi.1 start_local
        let interval_end := min bi.2 end_local
        if interval_start < interval_end then intervals2 ++ [(interval_start, interval_end)]
        else intervals2) intervals) []

/-- `reporter.calculate_period_metrics`: uptime/downtime of one store over
one trailing window `[start_time, end_time]`, in the requested unit.
`store_id`/`all_hours`/`off` feed the business-interval query;
`observations` is the caller's week-wide observation list. -/
def calculate_period_metrics (store_id : String) (all_hours : List BusinessHours)
    (observations : List StoreStatus) (start_time end_time : Int) (off : Int)
    (unit : String) : ℚ × ℚ :=
  let period_observations := observations.filter
    (fun obs => start_time ≤ obs.timestamp_utc ∧ obs.timestamp_utc ≤ end_time)
  if period_observations.isEmpty then (0, 0)
  else
    let business_intervals := get_business_intervals store_id all_hours start_time end_time off
    let totals : Int × Int := business_intervals.foldl (fun acc iv =>
      let interval_start_utc := iv.1 - off
      let interval_end_utc := iv.2 - off
      let interval_obs := period_observations.filter
        (fun obs => interval_start_utc ≤ obs.timestamp_utc ∧ obs.timestamp_utc ≤ interval_end_utc)
      let ud := interpolate_status_in_interval interval_obs interval_start_utc interval_end_utc
      (acc.1 + ud.1, acc.2 + ud.2)) (0, 0)
    let total_uptime : ℚ := (totals.1 : ℚ)
    let total_downtime : ℚ := (totals.2 : ℚ)
    if unit = "minutes" then (total_uptime / 60, total_downtime / 60)
    else if unit = "hours" then (total_uptime / 3600, total_downtime / 3600)
    else (total_uptime, total_downtime)

/-- Python 3 `round(x)` (round-half-to-even), on exact rationals. -/
def pyRound (x : ℚ) : Int :=
  let f := ⌊x⌋
  let frac := x - (f : ℚ)
  if frac < 1 / 2 then f
  else if 1 / 2 < frac then f + 1
  else if f % 2 = 0 then f else f + 1

/-- Python `round(x, 2)`: round to 2 decimal places, half to even. -/
def round2 (x : ℚ) : ℚ := ((pyRound (x * 100) : ℚ)) / 100

/-- One per-store record of the report (the dict built by
`reporter.calculate_store_metrics`). -/
structure StoreMetrics where
  store_id : String
  uptime_last_hour : ℚ
  uptime_last_day : ℚ
  uptime_last_week : ℚ
  downtime_last_hour : ℚ
  downtime_last_day : ℚ
  downtime_last_week : ℚ
deriving DecidableEq, Repr

/-- The week-window per-store observation query of
`reporter.calculate_store_metrics`: rows of `store_status` for `store_id`
with `week_ago <= timestamp_utc <= current_time`, ordered by timestamp. -/
def week_observations (store_id : String) (all_status : List StoreStatus)
    (week_ago current_time : Int) : List StoreStatus :=
  sortObs (all_status.filter (fun obs =>
    obs.store_id = store_id ∧ week_ago ≤ obs.timestamp_utc ∧ obs.timestamp_utc ≤ current_time))

/-- `reporter.calculate_store_metrics`: the six metrics of one store.
`all_status`/`all_hours` stand for the two tables; `off` is the store's
resolved timezone offset (`get_store_timezone` + `pytz.timezone`). -/
def calculate_store_metrics (store_id : String) (all_status : List StoreStatus)
    (all_hours : List BusinessHours) (off : Int) (current_time : Int) : StoreMetrics :=
  let hour_ago := current_time - 3600
  let day_ago := current_time - 86400
  let week_ago := current_time - 604800
  let status_observations := week_observations store_id all_status week_ago current_time
  let mh := calculate_period_metrics store_id all_hours status_observations hour_ago current_time off "minutes"
  let md := calculate_period_metrics store_id all_hours status_observations day_ago current_time off "hours"
  let mw := calculate_period_metrics store_id all_hours status_observations week_ago current_time off "hours"
  { store_id := store_id
    uptime_last_hour := round2 mh.1
    uptime_last_day := round2 md.1
    uptime_last_week := round2 mw.1
    downtime_last_hour := round2 mh.2
    downtime_last_day := round2 md.2
    downtime_last_week := round2 mw.2 }

/-- The default all-zero record `reporter.generate_store_metrics` appends
for a store whose computation raised. -/
def default_metrics (store_id : String) : StoreMetrics :=
  { store_id := store_id
    uptime_last_hour := 0
    uptime_last_day := 0
    uptime_last_week := 0
    downtime_last_hour := 0
    downtime_last_day := 0
    downtime_last_week := 0 }

/-- `reporter.generate_store_metrics`: iterate all store ids, appending each
store's metrics; a raising per-store computation is caught and replaced by
the all-zero record.  The fallible call `calculate_store_metrics(store_id,
current_time)` (which may raise in DB access, `pytz.timezone`, etc.) is
abstracted as `compute : String → Except String StoreMetrics`. -/
def generate_store_metrics (store_ids : List String)
    (compute : String → Except String StoreMetrics) : List StoreMetrics :=
  store_ids.foldl (fun report_data store_id =>
    match compute store_id with
    | .ok metrics => report_data ++ [metrics]
    | .error _ => report_data ++ [default_metrics store_id]) []

/-- `reporter.get_current_timestamp`: `max(timestamp_utc)` over the whole
`store_status` table, falling back to `datetime.utcnow()` (`wall_clock`)
when the table is empty. -/
def get_current_timestamp (all_status : List StoreStatus) (wall_clock : Int) : Int :=
  match (all_status.map (fun obs => obs.timestamp_utc)).max? with
  | none => wall_clock
  | some m => m

/-- The column list of `reporter.save_report_to_csv`. -/
def fieldnames : List String :=
  ["store_id",
   "uptime_last_hour",
   "uptime_last_day",
   "uptime_last_week",
   "downtime_last_hour",
   "downtime_last_day",
   "downtime_last_week"]

/-- A CSV cell: the `store_id` column is a string, the six metric columns
are numeric. -/
def field_value (m : StoreMetrics) (f : String) : String ⊕ ℚ :=
  if f = "store_id" then .inl m.store_id
  else if f = "uptime_last_hour" then .inr m.uptime_last_hour
  else if f = "uptime_last_day" then .inr m.uptime_last_day
  else if f = "uptime_last_week" then .inr m.uptime_last_week
  else if f = "downtime_last_hour" then .inr m.downtime_last_hour
  else if f = "downtime_last_day" then .inr m.downtime_last_day
  else if f = "downtime_last_week" then .inr m.downtime_last_week
  else .inl ""

/-- `reporter.save_report_to_csv` as data: `csv.DictWriter` emits, for every
record, one row whose cells are the record's values in `fieldnames` order. -/
def save_report_to_csv (report_data : List StoreMetrics) : List (List (String ⊕ ℚ)) :=
  report_data.map (fun m => fieldnames.map (field_value m))

/-- The six numeric fields of a record, in report-column order. -/
def metric_values (m : StoreMetrics) : List ℚ :=
  [m.uptime_last_hour, m.uptime_last_day, m.uptime_last_week,
   m.downtime_last_hour, m.downtime_last_day, m.downtime_last_week]

/-- Row of the `report` table (`db_models.Report`). -/
structure Report where
  report_id : String
  status : String
  report_path : Option String
deriving DecidableEq, Repr

/-- `reporter.generate_report_sync`: run the full generation inline and
commit the outcome on the report record.  The pipeline up to the commit
(resolve current time, compute metrics, write the CSV) either yields the
written CSV path or raises; it is abstracted as
`pipeline : Except String String`.  On success the record becomes Complete
with the path recorded; on failure it becomes Failed and the exception is
re-raised. -/
def generate_report_sync (report : Report) (pipeline : Except String String) :
    Report × Except String String :=
  match pipeline with
  | .ok csv_path =>
    ({ report with status := "Complete", report_path := some csv_path }, .ok csv_path)
  | .error e => ({ report with status := "Failed" }, .error e)

/-- `reports.trigger_report`: persist a Running record, try async dispatch
(`dispatch_ok`), and on dispatch failure fall back to
`generate_report_sync` before returning.  Returns the committed record and
the HTTP status code of the response. -/
def trigger_report (report_id : String) (dispatch_ok : Bool)
    (pipeline : Except String String) : Report × Nat :=
  let report : Report := { report_id := report_id, status := "Running", report_path := none }
  if dispatch_ok then (report, 200)
  else
    match generate_report_sync report pipeline with
    | (r, .ok _) => (r, 200)
    | (r, .error _) => ({ r with status := "Failed" }, 500)

/-- The distinct responses of the poll endpoint `reports.get_report`. -/
inductive PollResult where
  | running
  | file (path : String)
  | fileMissing
  | failed
  | unknown
deriving DecidableEq, Repr

/-- `reports.get_report`: the poll surface over a report record.  A Complete
record with a recorded path serves the file; a Complete record with no path
is the retrieval-time error branch. -/
def get_report (r : Report) : PollResult :=
  if r.status = "Running" then .running
  else if r.status = "Complete" then
    match r.report_path with
    | some p => .file p
    | none => .fileMissing
  else if r.status = "Failed" then .failed
  else .unknown

/-- The step-function attribution of spec §4.2, written from the spec's
words for refinement against `interpolate_status_in_interval`: the pre-first
gap is attributed to the first observation's status, each consecutive gap to
the earlier observation's status, the post-last gap to the last
observation's status, and the seconds of every span whose governing status
is Active ('active') are summed. -/
def spec_step_uptime (obs : List StoreStatus) (interval_start interval_end : Int) : Int :=
  match obs with
  | [] => 0
  | first :: _ =>
    (if first.status = "active" then first.timestamp_utc - interval_start else 0)
    + ((obs.zip obs.tail).map (fun p =>
        if p.1.status = "active" then p.2.timestamp_utc - p.1.timestamp_utc else 0)).sum
    + (match obs.getLast? with
       | none => 0
       | some last => if last.status = "active" then interval_end - last.timestamp_utc else 0)

/-! ## Helper lemmas about the interpolation blocks -/

theorem pre_gap_cons (f : StoreStatus) (l : List StoreStatus) (s : Int) :
    pre_gap (f :: l) s =
      if s < f.timestamp_utc then
        (if f.status = "active" then f.timestamp_utc - s else 0)
      else 0 := rfl

theorem between_gaps_nil : between_gaps [] = 0 := rfl

theorem between_gaps_single (a : StoreStatus) : between_gaps [a] = 0 := rfl

theorem between_gaps_cons2 (a b : StoreStatus) (l : List StoreStatus) :
    between_gaps (a :: b :: l) =
      (if a.status = "active" then b.timestamp_utc - a.timestamp_utc else 0) +
        between_gaps (b :: l) := by
  simp [between_gaps]

theorem post_gap_single (a : StoreStatus) (e : Int) :
    post_gap [a] e =
      if a.timestamp_utc < e then
        (if a.status = "active" then e - a.timestamp_utc else 0)
      else 0 := rfl

theorem post_gap_cons2 (a b : StoreStatus) (l : List StoreStatus) (e : Int) :
    post_gap (a :: b :: l) e = post_gap (b :: l) e := by
  simp [post_gap, List.getLast?_cons_cons]

theorem sortObs_singleton (a : StoreStatus) : sortObs [a] = [a] := rfl

theorem mem_sortObs {a : StoreStatus} {l : List StoreStatus} :
    a ∈ sortObs l ↔ a ∈ l :=
  (List.perm_insertionSort obsLe l).mem_iff

theorem sortObs_perm (l : List StoreStatus) : (sortObs l).Perm l :=
  List.perm_insertionSort obsLe l

theorem sortObs_ne_nil {l : List StoreStatus} (h : l ≠ []) : sortObs l ≠ [] := by
  intro hnil
  have hlen := (sortObs_perm l).length_eq
  rw [hnil] at hlen
  exact h (List.length_eq_zero.mp hlen.symm)

theorem pre_gap_eq_zero (l : List StoreStatus) (s : Int)
    (h : ∀ o ∈ l, o.status ≠ "active") : pre_gap l s = 0 := by
  cases l with
  | nil => rfl
  | cons f t =>
    rw [pre_gap_cons, if_neg (h f (List.mem_cons_self f t))]
    simp

theorem between_gaps_eq_zero :
    ∀ l : List StoreStatus, (∀ o ∈ l, o.status ≠ "active") → between_gaps l = 0
  | [] , _ => rfl
  | [_], _ => rfl
  | a :: b :: l, h => by
    rw [between_gaps_cons2, if_neg (h a (List.mem_cons_self a (b :: l))),
      between_gaps_eq_zero (b :: l) (fun o ho => h o (List.mem_cons_of_mem a ho))]
    simp

theorem post_gap_eq_zero :
    ∀ (l : List StoreStatus) (e : Int), (∀ o ∈ l, o.status ≠ "active") → post_gap l e = 0
  | [], _, _ => rfl
  | [a], e, h => by
    rw [post_gap_single, if_neg (h a (List.mem_cons_self a []))]
    simp
  | a :: b :: l, e, h => by
    rw [post_gap_cons2]
    exact post_gap_eq_zero (b :: l) e (fun o ho => h o (List.mem_cons_of_mem a ho))

/-! ## Claims -/

/-- Claim C1, counterexample: on the empty observation set the interpolator
returns (0, 0), so over the interval [0, 100] uptime + downtime = 0 ≠ 100 =
interval duration; the conservation identity fails as stated for *every*
observation set. -/
theorem claim1_counterexample :
    ¬ ((interpolate_status_in_interval [] 0 100).1 +
        (interpolate_status_in_interval [] 0 100).2 = 100 - 0) := by decide

/-- Claim C1 (amended): for every interval and every **non-empty** observation
set, uptime_seconds + downtime_seconds equals the interval duration
end_time - start_time exactly. -/
theorem claim1_conservation (observations : List StoreStatus) (s e : Int)
    (h : observations ≠ []) :
    (interpolate_status_in_interval observations s e).1 +
      (interpolate_status_in_interval observations s e).2 = e - s := by
  have hne : observations.isEmpty = false := List.isEmpty_eq_false.mpr h
  simp only [interpolate_status_in_interval, hne, Bool.false_eq_true, if_false]
  ring

theorem claim1_witness :
    (interpolate_status_in_interval [⟨"s", 10, "active"⟩] 0 100).1 +
      (interpolate_status_in_interval [⟨"s", 10, "active"⟩] 0 100).2 = 100 - 0 :=
  claim1_conservation [⟨"s", 10, "active"⟩] 0 100 (by decide)

/-- Claim C3: a queried sub-window with zero observations (boundary-inclusive)
yields (0, 0) from the period computation, for every store, rule set,
timezone offset and unit; and the interpolator on an empty observation list
returns (0, 0). -/
theorem claim3_empty_window_zero :
    (∀ (sid : String) (all_hours : List BusinessHours) (observations : List StoreStatus)
        (s e off : Int) (unit : String),
        (∀ o ∈ observations, ¬ (s ≤ o.timestamp_utc ∧ o.timestamp_utc ≤ e)) →
        calculate_period_metrics sid all_hours observations s e off unit = (0, 0)) ∧
    (∀ s e : Int, interpolate_status_in_interval [] s e = (0, 0)) := by
  constructor
  · intro sid all_hours observations s e off unit h
    have hf : observations.filter
        (fun obs => s ≤ obs.timestamp_utc ∧ obs.timestamp_utc ≤ e) = [] := by
      rw [List.filter_eq_nil_iff]
      intro a ha
      simpa using h a ha
    unfold calculate_period_metrics
    rw [hf]
    simp
  · intro s e
    rfl

theorem claim3_witness :
    calculate_period_metrics "s" [] [⟨"s", 500, "active"⟩] 0 100 0 "minutes" = (0, 0) :=
  claim3_empty_window_zero.1 "s" [] [⟨"s", 500, "active"⟩] 0 100 0 "minutes" (by decide)

/-- Claim C5: a store with zero business-hours rules gets exactly one interval
equal to the entire requested range (the range endpoints rendered in local
time denote the same instants), for every requested range. -/
theorem claim5_no_rules_whole_range (sid : String) (all_hours : List BusinessHours)
    (s e off : Int) (h : all_hours.filter (fun bh => bh.store_id = sid) = []) :
    get_business_intervals sid all_hours s e off = [(s + off, e + off)] := by
  simp [get_business_intervals, h]

theorem claim5_witness :
    get_business_intervals "s" [⟨"other", 0, 0, 3600⟩] 0 100 7 = [(7, 107)] :=
  claim5_no_rules_whole_range "s" [⟨"other", 0, 0, 3600⟩] 0 100 7 (by decide)

theorem pre_gap_of_le (f : StoreStatus) (rest : List StoreStatus) (s : Int)
    (h : s ≤ f.timestamp_utc) :
    pre_gap (f :: rest) s = (if f.status = "active" then f.timestamp_utc - s else 0) := by
  rw [pre_gap_cons]
  rcases lt_or_eq_of_le h with hlt | heq
  · rw [if_pos hlt]
  · rw [if_neg (by omega)]
    simp [← heq]

theorem post_gap_of_le (l : List StoreStatus) (last_obs : StoreStatus) (e : Int)
    (hlast : l.getLast? = some last_obs) (h : last_obs.timestamp_utc ≤ e) :
    post_gap l e = (if last_obs.status = "active" then e - last_obs.timestamp_utc else 0) := by
  simp only [post_gap, hlast]
  rcases lt_or_eq_of_le h with hlt | heq
  · rw [if_pos hlt]
  · rw [if_neg (by omega)]
    simp [heq]

/-- Claim C2: on a non-empty, sorted, within-interval observation set the
interpolator computes exactly the spec's right-hand-held step function —
pre-first gap to the first observation's status, each consecutive gap to
the earlier observation's status, post-last gap to the last observation's
status — and a single Active observation at the interval's start yields
uptime equal to the full interval duration. -/
theorem claim2_step_function :
    (∀ (observations : List StoreStatus) (s e : Int),
        observations ≠ [] →
        List.Sorted obsLe observations →
        (∀ o ∈ observations, s ≤ o.timestamp_utc ∧ o.timestamp_utc ≤ e) →
        interpolate_status_in_interval observations s e =
          (spec_step_uptime observations s e,
           (e - s) - spec_step_uptime observations s e)) ∧
    (∀ (sid : String) (s e : Int),
        s ≤ e →
        interpolate_status_in_interval [⟨sid, s, "active"⟩] s e = (e - s, 0)) := by
  constructor
  · intro observations s e hne hsort hwin
    obtain ⟨f, rest, rfl⟩ := List.exists_cons_of_ne_nil hne
    have hsortEq : sortObs (f :: rest) = f :: rest := hsort.insertionSort_eq
    obtain ⟨last_obs, hlast⟩ : ∃ lo, (f :: rest).getLast? = some lo :=
      ⟨_, List.getLast?_eq_getLast _ (by simp)⟩
    have hlastmem : last_obs ∈ f :: rest := List.mem_of_getLast?_eq_some hlast
    have hfs : s ≤ f.timestamp_utc := (hwin f (List.mem_cons_self f rest)).1
    have hle : last_obs.timestamp_utc ≤ e := (hwin last_obs hlastmem).2
    simp only [interpolate_status_in_interval, List.isEmpty_cons, Bool.false_eq_true, if_false,
      hsortEq, pre_gap_of_le f rest s hfs, post_gap_of_le _ last_obs e hlast hle,
      spec_step_uptime, between_gaps, hlast]
  · intro sid s e hse
    simp only [interpolate_status_in_interval, List.isEmpty_cons, Bool.false_eq_true, if_false,
      sortObs_singleton, pre_gap_cons, between_gaps_single, post_gap_single, Prod.mk.injEq]
    split_ifs <;> constructor <;> omega

theorem claim2_witness :
    interpolate_status_in_interval [⟨"s", 0, "active"⟩] 0 3600 = (3600, 0) := by
  simpa using claim2_step_function.2 "s" 0 3600 (by decide)

/-- Claim C10: a span counts toward uptime only when the governing status is
exactly the lowercase string 'active'; a set whose statuses are all
different from 'active' (e.g. 'Active', 'ACTIVE', arbitrary strings)
produces zero uptime and full-interval downtime, and a single governing
observation contributes the whole interval to uptime exactly when its
status equals 'active'. -/
theorem claim10_exact_active_match :
    (∀ (observations : List StoreStatus) (s e : Int),
        observations ≠ [] →
        (∀ o ∈ observations, o.status ≠ "active") →
        interpolate_status_in_interval observations s e = (0, e - s)) ∧
    (∀ (sid st : String) (t s e : Int),
        s ≤ t → t ≤ e →
        interpolate_status_in_interval [⟨sid, t, st⟩] s e =
          (if st = "active" then e - s else 0,
           if st = "active" then 0 else e - s)) := by
  constructor
  · intro observations s e hne hA
    have hA2 : ∀ o ∈ sortObs observations, o.status ≠ "active" :=
      fun o ho => hA o (mem_sortObs.mp ho)
    have hEmpty : observations.isEmpty = false := List.isEmpty_eq_false.mpr hne
    simp only [interpolate_status_in_interval, hEmpty, Bool.false_eq_true, if_false,
      pre_gap_eq_zero _ s hA2, between_gaps_eq_zero _ hA2, post_gap_eq_zero _ e hA2]
    simp
  · intro sid st t s e hst hte
    simp only [interpolate_status_in_interval, List.isEmpty_cons, Bool.false_eq_true, if_false,
      sortObs_singleton, pre_gap_cons, between_gaps_single, post_gap_single, Prod.mk.injEq]
    split_ifs <;> constructor <;> omega

theorem claim10_witness :
    interpolate_status_in_interval [⟨"s", 5, "Active"⟩] 0 100 = (0, 100) := by
  have h := claim10_exact_active_match.2 "s" "Active" 5 0 100 (by decide) (by decide)
  simpa using h

/-- Claim C4: an overnight rule (`end_local < start_local`) matched on calendar
day `d` yields, before clipping, the interval from `start_local` on day `d`
to `end_local` on day `d + 1`; concretely, the builder turns the rule
(day_of_week = Fri, 22:00, 06:00) into the interval Friday 22:00 local
through Saturday 06:00 local. -/
theorem claim4_overnight_rule :
    (∀ (day : Int) (hours : BusinessHours),
        hours.end_time_local < hours.start_time_local →
        rule_interval day hours =
          (day * 86400 + hours.start_time_local,
           (day + 1) * 86400 + hours.end_time_local)) ∧
    get_business_intervals "s" [⟨"s", 4, 79200, 21600⟩] 345600 518400 0 =
      [(424800, 453600)] := by
  constructor
  · intro day hours h
    simp only [rule_interval, if_pos h, Prod.mk.injEq, true_and]
    ring
  · decide

theorem claim4_witness :
    rule_interval 4 ⟨"s", 4, 79200, 21600⟩ = (424800, 453600) := by
  rw [claim4_overnight_rule.1 4 ⟨"s", 4, 79200, 21600⟩ (by decide)]
  decide

/-- Claim C7: with at least one observation, `get_current_timestamp` is exactly
the maximum observation timestamp (it is attained and is an upper bound)
and does not depend on the wall clock (determinism); with no observations
it falls back to the wall clock. -/
theorem claim7_current_timestamp :
    (∀ (all_status : List StoreStatus) (wall_clock : Int),
        all_status ≠ [] →
          (∃ o ∈ all_status, get_current_timestamp all_status wall_clock = o.timestamp_utc) ∧
          (∀ o ∈ all_status, o.timestamp_utc ≤ get_current_timestamp all_status wall_clock) ∧
          (∀ wc2 : Int, get_current_timestamp all_status wall_clock =
            get_current_timestamp all_status wc2)) ∧
    (∀ wall_clock : Int, get_current_timestamp [] wall_clock = wall_clock) := by
  constructor
  · intro all_status wall_clock h
    obtain ⟨m, hm⟩ : ∃ m, (all_status.map (fun obs => obs.timestamp_utc)).max? = some m := by
      cases hq : (all_status.map (fun obs => obs.timestamp_utc)).max? with
      | none =>
        rw [List.max?_eq_none_iff, List.map_eq_nil_iff] at hq
        exact absurd hq h
      | some m => exact ⟨m, rfl⟩
    have hmem : m ∈ all_status.map (fun obs => obs.timestamp_utc) :=
      List.max?_mem (fun a b => max_choice a b) hm
    have hub : ∀ b ∈ all_status.map (fun obs => obs.timestamp_utc), b ≤ m :=
      (List.max?_le_iff (fun a b c => max_le_iff) hm).mp le_rfl
    have hg : ∀ wc : Int, get_current_timestamp all_status wc = m := by
      intro wc
      simp [get_current_timestamp, hm]
    refine ⟨?_, ?_, ?_⟩
    · obtain ⟨o, ho, hoe⟩ := List.mem_map.mp hmem
      exact ⟨o, ho, by rw [hg, hoe]⟩
    · intro o ho
      rw [hg]
      exact hub o.timestamp_utc (List.mem_map.mpr ⟨o, ho, rfl⟩)
    · intro wc2
      rw [hg, hg]
  · intro wall_clock
    rfl

theorem claim7_witness :
    (∃ o ∈ [(⟨"a", 5, "active"⟩ : StoreStatus), ⟨"b", 9, "inactive"⟩],
        get_current_timestamp [⟨"a", 5, "active"⟩, ⟨"b", 9, "inactive"⟩] 0 = o.timestamp_utc) ∧
    get_current_timestamp [⟨"a", 5, "active"⟩, ⟨"b", 9, "inactive"⟩] 0 =
      get_current_timestamp [⟨"a", 5, "active"⟩, ⟨"b", 9, "inactive"⟩] 123 :=
  ⟨(claim7_current_timestamp.1 _ 0 (by decide)).1,
   (claim7_current_timestamp.1 _ 0 (by decide)).2.2 123⟩

/-- Claim C8: when async dispatch fails and the synchronous generation succeeds,
the record committed before `trigger_report` returns is Complete with the
artifact path persisted, and a poll of that record does not observe
Running — it serves the file. -/
theorem claim8_sync_fallback (report_id csv_path : String) :
    (trigger_report report_id false (.ok csv_path)).1.status = "Complete" ∧
    (trigger_report report_id false (.ok csv_path)).1.report_path = some csv_path ∧
    get_report (trigger_report report_id false (.ok csv_path)).1 ≠ PollResult.running ∧
    get_report (trigger_report report_id false (.ok csv_path)).1 = PollResult.file csv_path := by
  refine ⟨rfl, rfl, ?_, ?_⟩ <;>
    simp [trigger_report, generate_report_sync, get_report]

theorem generate_store_metrics_eq_map (compute : String → Except String StoreMetrics)
    (store_ids : List String) :
    generate_store_metrics store_ids compute =
      store_ids.map (fun sid =>
        match compute sid with
        | .ok metrics => metrics
        | .error _ => default_metrics sid) := by
  have aux : ∀ (ids : List String) (acc : List StoreMetrics),
      ids.foldl (fun report_data store_id =>
        match compute store_id with
        | .ok metrics => report_data ++ [metrics]
        | .error _ => report_data ++ [default_metrics store_id]) acc =
      acc ++ ids.map (fun sid =>
        match compute sid with
        | .ok metrics => metrics
        | .error _ => default_metrics sid) := by
    intro ids
    induction ids with
    | nil => intro acc; simp
    | cons x xs ih =>
      intro acc
      simp only [List.foldl_cons, List.map_cons]
      rw [ih]
      cases hx : compute x <;> simp
  simpa using aux store_ids []

/-- Claim C6: a per-store failure yields the all-zero record in that store's
position, every store still gets a record (no abort), and every other
store's record is the same as under a computation in which the failing
store succeeds. -/
theorem claim6_per_store_failure_isolation
    (store_ids : List String) (c1 c2 : String → Except String StoreMetrics)
    (s err : String) (m : StoreMetrics)
    (hfail : c1 s = .error err) (_hok : c2 s = .ok m)
    (hagree : ∀ t, t ≠ s → c1 t = c2 t) :
    (generate_store_metrics store_ids c1).length = store_ids.length ∧
    (∀ i : Nat, store_ids[i]? = some s →
        (generate_store_metrics store_ids c1)[i]? = some (default_metrics s)) ∧
    (∀ (i : Nat) (t : String), store_ids[i]? = some t → t ≠ s →
        (generate_store_metrics store_ids c1)[i]? =
          (generate_store_metrics store_ids c2)[i]?) := by
  refine ⟨?_, ?_, ?_⟩
  · rw [generate_store_metrics_eq_map]
    exact List.length_map _ _
  · intro i hi
    rw [generate_store_metrics_eq_map, List.getElem?_map, hi]
    simp [hfail]
  · intro i t hi hne
    rw [generate_store_metrics_eq_map, generate_store_metrics_eq_map,
      List.getElem?_map, List.getElem?_map, hi]
    simp [hagree t hne]

theorem claim6_witness :
    (generate_store_metrics ["a", "b"]
        (fun t => if t = "b" then Except.error "boom"
                  else Except.ok (default_metrics t)))[1]? =
      some (default_metrics "b") ∧
    (generate_store_metrics ["a", "b"]
        (fun t => if t = "b" then Except.error "boom"
                  else Except.ok (default_metrics t)))[0]? =
      (generate_store_metrics ["a", "b"]
        (fun t => if t = "b" then Except.ok (default_metrics "b")
                  else Except.ok (default_metrics t)))[0]? := by
  have h := claim6_per_store_failure_isolation ["a", "b"]
    (fun t => if t = "b" then Except.error "boom" else Except.ok (default_metrics t))
    (fun t => if t = "b" then Except.ok (default_metrics "b")
              else Except.ok (default_metrics t))
    "b" "boom" (default_metrics "b") (by simp) (by simp)
    (fun t ht => by simp only [if_neg ht])
  exact ⟨h.2.1 1 (by decide), h.2.2 0 "a" (by decide) (by decide)⟩

theorem cpm_minutes (sid : String) (all_hours : List BusinessHours)
    (observations : List StoreStatus) (s e off : Int) :
    calculate_period_metrics sid all_hours observations s e off "minutes" =
      ((calculate_period_metrics sid all_hours observations s e off "seconds").1 / 60,
       (calculate_period_metrics sid all_hours observations s e off "seconds").2 / 60) := by
  unfold calculate_period_metrics
  by_cases h : (observations.filter
      (fun obs => s ≤ obs.timestamp_utc ∧ obs.timestamp_utc ≤ e)).isEmpty = true
  · rw [if_pos h, if_pos h]
    norm_num
  · rw [if_neg h, if_neg h]
    simp

theorem cpm_hours (sid : String) (all_hours : List BusinessHours)
    (observations : List StoreStatus) (s e off : Int) :
    calculate_period_metrics sid all_hours observations s e off "hours" =
      ((calculate_period_metrics sid all_hours observations s e off "seconds").1 / 3600,
       (calculate_period_metrics sid all_hours observations s e off "seconds").2 / 3600) := by
  unfold calculate_period_metrics
  by_cases h : (observations.filter
      (fun obs => s ≤ obs.timestamp_utc ∧ obs.timestamp_utc ≤ e)).isEmpty = true
  · rw [if_pos h, if_pos h]
    norm_num
  · rw [if_neg h, if_neg h]
    simp

theorem round2_two_decimals (x : ℚ) : ∃ k : ℤ, round2 x * 100 = (k : ℚ) :=
  ⟨pyRound (x * 100), by unfold round2; exact div_mul_cancel₀ _ (by norm_num)⟩

/-- Claim C9: the hour column-pair is the raw seconds divided by 60 (minutes) and
the day/week column-pairs are the raw seconds divided by 3600 (hours), each
rounded to 2 decimal places; the CSV writer emits the cells of every row
exactly in the order store_id, uptime_last_hour, uptime_last_day,
uptime_last_week, downtime_last_hour, downtime_last_day,
downtime_last_week; and every numeric field of every record — including the
per-store failure fallback record — is an exact multiple of 0.01. -/
theorem claim9_output_schema :
    (∀ m : StoreMetrics,
        fieldnames.map (field_value m) =
          [Sum.inl m.store_id, Sum.inr m.uptime_last_hour, Sum.inr m.uptime_last_day,
           Sum.inr m.uptime_last_week, Sum.inr m.downtime_last_hour,
           Sum.inr m.downtime_last_day, Sum.inr m.downtime_last_week]) ∧
    (∀ report_data : List StoreMetrics,
        save_report_to_csv report_data = report_data.map (fun m =>
          [Sum.inl m.store_id, Sum.inr m.uptime_last_hour, Sum.inr m.uptime_last_day,
           Sum.inr m.uptime_last_week, Sum.inr m.downtime_last_hour,
           Sum.inr m.downtime_last_day, Sum.inr m.downtime_last_week])) ∧
    (∀ (sid : String) (all_status : List StoreStatus) (all_hours : List BusinessHours)
        (off ct : Int),
        calculate_store_metrics sid all_status all_hours off ct =
          { store_id := sid
            uptime_last_hour := round2 ((calculate_period_metrics sid all_hours
              (week_observations sid all_status (ct - 604800) ct)
              (ct - 3600) ct off "seconds").1 / 60)
            uptime_last_day := round2 ((calculate_period_metrics sid all_hours
              (week_observations sid all_status (ct - 604800) ct)
              (ct - 86400) ct off "seconds").1 / 3600)
            uptime_last_week := round2 ((calculate_period_metrics sid all_hours
              (week_observations sid all_status (ct - 604800) ct)
              (ct - 604800) ct off "seconds").1 / 3600)
            downtime_last_hour := round2 ((calculate_period_metrics sid all_hours
              (week_observations sid all_status (ct - 604800) ct)
              (ct - 3600) ct off "seconds").2 / 60)
            downtime_last_day := round2 ((calculate_period_metrics sid all_hours
              (week_observations sid all_status (ct - 604800) ct)
              (ct - 86400) ct off "seconds").2 / 3600)
            downtime_last_week := round2 ((calculate_period_metrics sid all_hours
              (week_observations sid all_status (ct - 604800) ct)
              (ct - 604800) ct off "seconds").2 / 3600) }) ∧
    (∀ (sid : String) (all_status : List StoreStatus) (all_hours : List BusinessHours)
        (off ct : Int),
        ∀ v ∈ metric_values (calculate_store_metrics sid all_status all_hours off ct),
          ∃ k : ℤ, v * 100 = (k : ℚ)) ∧
    (∀ sid : String, ∀ v ∈ metric_values (default_metrics sid), ∃ k : ℤ, v * 100 = (k : ℚ)) := by
  refine ⟨?_, ?_, ?_, ?_, ?_⟩
  · intro m
    rfl
  · intro report_data
    rfl
  · intro sid all_status all_hours off ct
    simp only [calculate_store_metrics, cpm_minutes, cpm_hours]
  · intro sid all_status all_hours off ct v hv
    simp only [calculate_store_metrics, metric_values, List.mem_cons, List.not_mem_nil,
      or_false] at hv
    rcases hv with rfl | rfl | rfl | rfl | rfl | rfl <;> exact round2_two_decimals _
  · intro sid v hv
    simp only [default_metrics, metric_values, List.mem_cons, List.not_mem_nil,
      or_false] at hv
    rcases hv with rfl | rfl | rfl | rfl | rfl | rfl <;> exact ⟨0, by norm_num⟩

theorem claim9_witness :
    ∃ k : ℤ, (calculate_store_metrics "s" [] [] 0 0).uptime_last_hour * 100 = (k : ℚ) :=
  claim9_output_schema.2.2.2.1 "s" [] [] 0 0
    ((calculate_store_metrics "s" [] [] 0 0).uptime_last_hour) (by simp [metric_values])
